import Mathlib

/-!
Shallow embedding of `test1.py` (GoPro download + Box upload script).

The script has two flows:
* a Box upload flow (`Box.upload_small_file_to_folder`,
  `Box.upload_large_file_to_folder`, `Box.get_file_size`,
  `Box.upload_file_to_box`, `Box.upload_all_files_to_box`), and
* a GoPro capture-acquisition flow (`main`).

External effects (the local filesystem, the Box SDK, the GoPro HTTP API)
are modelled by oracle environments; each embedded function returns its
Python result (`Except Err _` models an escaping exception) together with
a trace of the observable events it performed, in order.
-/

/-- Python exceptions that the embedded functions can raise. -/
inductive Err where
  | fileNotFound (path : String)
  | other (msg : String)
deriving DecidableEq, Repr

/-- An uploaded-file descriptor as returned by the Box SDK: the spec
requires at least an identifier and a name. -/
structure FileDesc where
  id : String
  name : String
deriving DecidableEq, Repr

/-- Observable events, in program order.  `fsWrite` is the only local
filesystem mutation any part of the program performs (the GoPro download
writing its local file); the upload flow only reads. -/
inductive Event where
  | fsGetSize (path : String)
  | fsOpenRead (path : String)
  | fsWrite (path : String)
  | sdkSmallUpload (path folderId name : String)
  | sdkLargeUpload (path name : String) (size : Nat) (folderId : String)
  | logUploadingSmall (path : String)
  | logUploaded (name id : String)
  | logUploadFailed (what : String)
  | logUploading (path : String)
  | logErrorUploading (name : String)
  | camGetMediaList
  | camDownload (remote localName : String)
  | camDeleteAll
deriving DecidableEq, Repr

/-- Is the event a local-filesystem mutation? Only `fsWrite` mutates;
`fsGetSize` and `fsOpenRead` are reads. -/
def Event.isFsMutation : Event → Bool
  | .fsWrite _ => true
  | _ => false

/-- Is the event the bulk-traversal per-file print
the per-file line `Uploading ... to Box...` (line 146), marking one upload attempt? -/
def Event.isLogUploading : Event → Bool
  | .logUploading _ => true
  | _ => false

/-- Is the event the camera bulk-delete command? -/
def Event.isDeleteAll : Event → Bool
  | .camDeleteAll => true
  | _ => false

/-- Oracle environment for the Box upload flow: the local filesystem
(`fs p = some n` means path `p` exists, is readable, and has size `n`
bytes; `none` means accessing it raises), and the two SDK upload calls
(`none` means the SDK call raised an exception). -/
structure BoxEnv where
  fs : String → Option Nat
  smallUpload : String → String → String → Option FileDesc
  largeUpload : String → String → Nat → String → Option FileDesc

/-- Models `os.path.basename` on POSIX paths: everything after the last slash
(the whole string when it has no slash, empty after a trailing slash). -/
def basename (p : String) : String :=
  ⟨(p.data.reverse.takeWhile (fun c => c ≠ '/')).reverse⟩

/-- Hardcoded Box folder constant `self.videos_folder_box_id` (line 23). -/
def videos_folder_box_id : String := "303832684570"

/-- Hardcoded Box folder constant `self.box_road_health_folder_id` (line 24). -/
def box_road_health_folder_id : String := "309237796489"

/-- Hardcoded constant `self.box_metadata_template_key` (line 25). -/
def box_metadata_template_key : String := "folderWatcherMetadata"

/-- Python `a or b` on optional strings: `None` and `""` are falsy. -/
def pyOrStr (a b : Option String) : Option String :=
  match a with
  | some s => if s = "" then b else some s
  | none => b

/-- The process environment variables read at startup (lines 11-14),
`none` when the variable is absent. -/
structure CredEnv where
  box_client_id : Option String
  box_client_secret : Option String
  box_enterprise_id : Option String
deriving DecidableEq, Repr

/-- The credential attributes `Box.__init__` stores. -/
structure BoxCredentials where
  client_id : Option String
  client_secret : Option String
  enterprise_id : Option String
deriving DecidableEq, Repr

/-- Lines 18-20 of `Box.__init__`:
`self.client_id = client_id or BOX_CLIENT_ID` and likewise for the
client secret and enterprise id. -/
def box_init_credentials (env : CredEnv)
    (client_id client_secret enterprise_id : Option String) : BoxCredentials :=
  { client_id := pyOrStr client_id env.box_client_id
    client_secret := pyOrStr client_secret env.box_client_secret
    enterprise_id := pyOrStr enterprise_id env.box_enterprise_id }

/-- Lines 74-77 of `upload_small_file_to_folder`: the Python test
`if not new_name:` picks the base name when the override is `None` or the
empty string, and the override otherwise.  `none` models omitting the
argument. -/
def chosen_upload_name (file_path : String) (new_name : Option String) : String :=
  match new_name with
  | none => basename file_path
  | some s => if s = "" then basename file_path else s

/-- Embeds `Box.upload_small_file_to_folder` (lines 64-90), with the name choice
of lines 74-77 factored as `chosen_upload_name`.  The whole body is inside
`try`: any failure (open or SDK call) is caught, logged, and converted to
the sentinel `None` (here `none`); the result is never an escaping
exception, which the always-`Except.ok` result records. -/
def upload_small_file_to_folder (env : BoxEnv) (file_path : String)
    (folder_id : String) (new_name : Option String) :
    Except Err (Option FileDesc) × List Event :=
  let new_file_name := chosen_upload_name file_path new_name
  match env.fs file_path with
  | none => (.ok none, [.logUploadFailed file_path])
  | some _ =>
      match env.smallUpload file_path folder_id new_file_name with
      | some d =>
          (.ok (some d),
           [.fsOpenRead file_path, .sdkSmallUpload file_path folder_id new_file_name])
      | none =>
          (.ok none,
           [.fsOpenRead file_path, .sdkSmallUpload file_path folder_id new_file_name,
            .logUploadFailed file_path])

/-- The Python default `folder_id="0"` of `upload_small_file_to_folder`
(line 64). -/
def upload_small_default_folder_id : String := "0"

/-- Calls `upload_small_file_to_folder` with only a file path, as the
Python defaults `folder_id="0", new_name=None` have it. -/
def upload_small_file_to_folder_default (env : BoxEnv) (file_path : String) :
    Except Err (Option FileDesc) × List Event :=
  upload_small_file_to_folder env file_path upload_small_default_folder_id none

/-- Embeds `Box.upload_large_file_to_folder` (lines 92-110).
`file_size = os.path.getsize(file_path)` (line 95) runs BEFORE the `try`
block, so a failure there escapes the helper; failures inside the `try`
(open or the chunked SDK call) are caught and become the sentinel. -/
def upload_large_file_to_folder (env : BoxEnv)
    (file_path file_name parent_folder_id : String) :
    Except Err (Option FileDesc) × List Event :=
  match env.fs file_path with
  | none => (.error (.fileNotFound file_path), [])
  | some file_size =>
      match env.largeUpload file_path file_name file_size parent_folder_id with
      | some d =>
          (.ok (some d),
           [.fsGetSize file_path, .fsOpenRead file_path,
            .sdkLargeUpload file_path file_name file_size parent_folder_id])
      | none =>
          (.ok none,
           [.fsGetSize file_path, .fsOpenRead file_path,
            .sdkLargeUpload file_path file_name file_size parent_folder_id,
            .logUploadFailed file_name])

/-- Embeds `Box.get_file_size` (lines 112-113): bare `os.path.getsize`, no
exception handling. -/
def get_file_size (env : BoxEnv) (file_path : String) : Except Err Nat :=
  match env.fs file_path with
  | some n => .ok n
  | none => .error (.fileNotFound file_path)

/-- Embeds `Box.upload_file_to_box` (lines 115-133): query the size, route on
`file_size < 20 * 1024 * 1024` to the small or the chunked helper, then
`if uploaded_file:` log name and id.  The size query is before any `try`,
so its failure escapes. -/
def upload_file_to_box (env : BoxEnv)
    (source_file_path dest_file_name dest_folder_id : String) :
    Except Err Unit × List Event :=
  match get_file_size env source_file_path with
  | .error e => (.error e, [])
  | .ok file_size =>
      if file_size < 20 * 1024 * 1024 then
        match upload_small_file_to_folder env source_file_path dest_folder_id
            (some dest_file_name) with
        | (.error e, tr) =>
            (.error e, .fsGetSize source_file_path :: .logUploadingSmall source_file_path :: tr)
        | (.ok uploaded, tr) =>
            (.ok (),
             .fsGetSize source_file_path :: .logUploadingSmall source_file_path :: tr ++
               (match uploaded with
                | some d => [Event.logUploaded d.name d.id]
                | none => []))
      else
        match upload_large_file_to_folder env source_file_path dest_file_name
            dest_folder_id with
        | (.error e, tr) => (.error e, .fsGetSize source_file_path :: tr)
        | (.ok uploaded, tr) =>
            (.ok (),
             .fsGetSize source_file_path :: tr ++
               (match uploaded with
                | some d => [Event.logUploaded d.name d.id]
                | none => []))

/-- A local directory tree: the directory name, the regular files
directly in it, and its subdirectories.  This is the input over which
`os.walk` is modelled. -/
inductive DirTree where
  | node (dname : String) (files : List String) (subdirs : List DirTree)

/-- The name of a directory node. -/
def DirTree.dname : DirTree → String
  | .node n _ _ => n

mutual

/-- Models `os.walk(root)` for the tree rooted at `root`: top-down, yielding one
`(root, files)` pair per directory. -/
def walk : String → DirTree → List (String × List String)
  | root, .node _ files subdirs => (root, files) :: walkList root subdirs

/-- Models `os.walk` continued over a list of sibling subdirectories. -/
def walkList : String → List DirTree → List (String × List String)
  | _, [] => []
  | root, d :: ds => walk (root ++ "/" ++ d.dname) d ++ walkList root ds

end

/-- All `(containing directory, file name)` pairs `os.walk` enumerates. -/
def walkFiles (root : String) (t : DirTree) : List (String × String) :=
  (walk root t).flatMap fun rf => rf.2.map fun f => (rf.1, f)

mutual

/-- The number of regular files anywhere in the tree. -/
def DirTree.countFiles : DirTree → Nat
  | .node _ files subdirs => files.length + countFilesList subdirs

/-- Total file count over sibling subdirectories. -/
def countFilesList : List DirTree → Nat
  | [] => 0
  | d :: ds => d.countFiles + countFilesList ds

end

/-- The loop body of `Box.upload_all_files_to_box` (lines 144-149) for
one walked file `rf = (containing directory, file name)`: inside `try`,
join the path, print `Uploading ... to Box...`, and call
`upload_file_to_box` with the own file name as destination name; any
exception is caught and printed (`logErrorUploading`) and the loop
continues, so the body never raises (total, not `Except`-valued). -/
def upload_one_file (env : BoxEnv) (dest_folder_id : String)
    (rf : String × String) : List Event :=
  let file_path := rf.1 ++ "/" ++ rf.2
  Event.logUploading file_path ::
    (match upload_file_to_box env file_path rf.2 dest_folder_id with
     | (.ok _, tr) => tr
     | (.error _, tr) => tr ++ [Event.logErrorUploading rf.2])

/-- Embeds `Box.upload_all_files_to_box` (lines 135-149): walk the source
folder and run one `upload_one_file` loop body per file `os.walk`
enumerates.  The whole function never raises, mirroring the per-file
broad `except`. -/
def upload_all_files_to_box (env : BoxEnv) (source_folder : String)
    (tree : DirTree) (dest_folder_id : String) : List Event :=
  (walkFiles source_folder tree).flatMap (upload_one_file env dest_folder_id)

/-- One media file in the GoPro media manifest. -/
structure MediaFile where
  filename : String
deriving DecidableEq, Repr

/-- One media group in the GoPro media manifest. -/
structure MediaGroup where
  file_system : List MediaFile
deriving DecidableEq, Repr

/-- Oracle environment for the camera flow: the media-list response
(or the exception it raises), the result of each download
(`none` = success, `some msg` = raises), and of `delete_all`. -/
structure GoProEnv where
  media : Except String (List MediaGroup)
  download : String → String → Option String
  deleteAllResult : Option String

/-- The trailing path segment: `path.split("/")[-1]` (line 164), which
for `"/"`-splitting coincides with everything after the last slash. -/
def lastPart (p : String) : String :=
  ⟨(p.data.reverse.takeWhile (fun c => c ≠ '/')).reverse⟩

/-- The inner download loop of `main` over the `file_system` of a group
(lines 162-167): derive the local name `to_upload/<basename>`, download
(which writes the local file); any exception propagates immediately. -/
def downloadFiles (env : GoProEnv) : List MediaFile → Except String Unit × List Event
  | [] => (.ok (), [])
  | f :: rest =>
      let path := f.filename
      let local_name := "to_upload/" ++ lastPart path
      match env.download path local_name with
      | some e => (.error e, [])
      | none =>
          match downloadFiles env rest with
          | (res, tr) =>
              (res, .camDownload path local_name :: .fsWrite local_name :: tr)

/-- The outer download loop of `main` over the media groups (line 161). -/
def downloadGroups (env : GoProEnv) : List MediaGroup → Except String Unit × List Event
  | [] => (.ok (), [])
  | g :: gs =>
      match downloadFiles env g.file_system with
      | (.error e, tr) => (.error e, tr)
      | (.ok _, tr) =>
          match downloadGroups env gs with
          | (res, tr2) => (res, tr ++ tr2)

/-- The Python `main` coroutine (lines 152-172): within one scoped GoPro session, get the
media list, download every file of every group, then `delete_all()`.
No exception handling anywhere: any error propagates and aborts. -/
def main_flow (env : GoProEnv) : Except String Unit × List Event :=
  match env.media with
  | .error e => (.error e, [.camGetMediaList])
  | .ok media_list =>
      match downloadGroups env media_list with
      | (.error e, tr) => (.error e, .camGetMediaList :: tr)
      | (.ok _, tr) =>
          match env.deleteAllResult with
          | some e => (.error e, .camGetMediaList :: tr ++ [.camDeleteAll])
          | none => (.ok (), .camGetMediaList :: tr ++ [.camDeleteAll])

/-! ### Reduction lemmas: the five execution shapes of the router. -/

/-- Missing file: the size query raises and the error escapes the
router with an empty trace. -/
theorem upload_file_to_box_of_fs_none (env : BoxEnv) (p nm fid : String)
    (h : env.fs p = none) :
    upload_file_to_box env p nm fid = (.error (.fileNotFound p), []) := by
  simp [upload_file_to_box, get_file_size, h]

/-- Small file, SDK call succeeds. -/
theorem upload_file_to_box_small_ok (env : BoxEnv) (p nm fid : String) (sz : Nat)
    (d : FileDesc) (h : env.fs p = some sz) (hlt : sz < 20 * 1024 * 1024)
    (hs : env.smallUpload p fid (chosen_upload_name p (some nm)) = some d) :
    upload_file_to_box env p nm fid =
      (.ok (), [.fsGetSize p, .logUploadingSmall p, .fsOpenRead p,
        .sdkSmallUpload p fid (chosen_upload_name p (some nm)),
        .logUploaded d.name d.id]) := by
  simp [upload_file_to_box, get_file_size, upload_small_file_to_folder, h, hlt, hs]

/-- Small file, SDK call raises: the helper converts it to the sentinel,
and the `if uploaded_file:` guard of the router skips the success log. -/
theorem upload_file_to_box_small_fail (env : BoxEnv) (p nm fid : String) (sz : Nat)
    (h : env.fs p = some sz) (hlt : sz < 20 * 1024 * 1024)
    (hs : env.smallUpload p fid (chosen_upload_name p (some nm)) = none) :
    upload_file_to_box env p nm fid =
      (.ok (), [.fsGetSize p, .logUploadingSmall p, .fsOpenRead p,
        .sdkSmallUpload p fid (chosen_upload_name p (some nm)),
        .logUploadFailed p]) := by
  simp [upload_file_to_box, get_file_size, upload_small_file_to_folder, h, hlt, hs]

/-- Large file, SDK call succeeds. -/
theorem upload_file_to_box_large_ok (env : BoxEnv) (p nm fid : String) (sz : Nat)
    (d : FileDesc) (h : env.fs p = some sz) (hlt : ¬ sz < 20 * 1024 * 1024)
    (hs : env.largeUpload p nm sz fid = some d) :
    upload_file_to_box env p nm fid =
      (.ok (), [.fsGetSize p, .fsGetSize p, .fsOpenRead p,
        .sdkLargeUpload p nm sz fid, .logUploaded d.name d.id]) := by
  simp [upload_file_to_box, get_file_size, upload_large_file_to_folder, h, hlt, hs]

/-- Large file, SDK call raises: sentinel, skipped success log. -/
theorem upload_file_to_box_large_fail (env : BoxEnv) (p nm fid : String) (sz : Nat)
    (h : env.fs p = some sz) (hlt : ¬ sz < 20 * 1024 * 1024)
    (hs : env.largeUpload p nm sz fid = none) :
    upload_file_to_box env p nm fid =
      (.ok (), [.fsGetSize p, .fsGetSize p, .fsOpenRead p,
        .sdkLargeUpload p nm sz fid, .logUploadFailed nm]) := by
  simp [upload_file_to_box, get_file_size, upload_large_file_to_folder, h, hlt, hs]

/-! ### Trace facts used by the traversal and camera claims. -/

/-- The router never emits the per-file attempt print of the bulk loop. -/
theorem upload_file_to_box_countP_logUploading (env : BoxEnv) (p nm fid : String) :
    ((upload_file_to_box env p nm fid).2.countP Event.isLogUploading) = 0 := by
  rcases h : env.fs p with _ | sz
  · simp [upload_file_to_box_of_fs_none env p nm fid h]
  · by_cases hlt : sz < 20 * 1024 * 1024
    · rcases hs : env.smallUpload p fid (chosen_upload_name p (some nm)) with _ | d
      · simp [upload_file_to_box_small_fail env p nm fid sz h hlt hs, Event.isLogUploading]
      · simp [upload_file_to_box_small_ok env p nm fid sz d h hlt hs, Event.isLogUploading]
    · rcases hs : env.largeUpload p nm sz fid with _ | d
      · simp [upload_file_to_box_large_fail env p nm fid sz h hlt hs, Event.isLogUploading]
      · simp [upload_file_to_box_large_ok env p nm fid sz d h hlt hs, Event.isLogUploading]

/-- Each loop body prints exactly one per-file attempt line. -/
theorem upload_one_file_countP_logUploading (env : BoxEnv) (dest : String)
    (rf : String × String) :
    ((upload_one_file env dest rf).countP Event.isLogUploading) = 1 := by
  unfold upload_one_file
  rcases h : upload_file_to_box env (rf.1 ++ "/" ++ rf.2) rf.2 dest with ⟨res, tr⟩
  have htr : tr.countP Event.isLogUploading = 0 := by
    have := upload_file_to_box_countP_logUploading env (rf.1 ++ "/" ++ rf.2) rf.2 dest
    rw [h] at this; exact this
  rcases res with e | u <;>
    simp [h, List.countP_cons, List.countP_append, htr, Event.isLogUploading]

/-- Over any walked file list, the loop prints one attempt line per file. -/
theorem flatMap_upload_one_countP (env : BoxEnv) (dest : String)
    (L : List (String × String)) :
    ((L.flatMap (upload_one_file env dest)).countP Event.isLogUploading) = L.length := by
  induction L with
  | nil => simp
  | cons rf rest ih =>
      simp [List.flatMap_cons, List.countP_append, ih,
        upload_one_file_countP_logUploading env dest rf, Nat.add_comm]

mutual

/-- Summing per-directory file counts over the walk gives the total
file count of the tree. -/
theorem walk_files_sum (root : String) (t : DirTree) :
    ((walk root t).map (fun rf => rf.2.length)).sum = t.countFiles := by
  cases t with
  | node n files subdirs =>
      simp [walk, DirTree.countFiles, walkList_files_sum root subdirs]

/-- The sibling-list variant of `walk_files_sum`. -/
theorem walkList_files_sum (root : String) (ds : List DirTree) :
    ((walkList root ds).map (fun rf => rf.2.length)).sum = countFilesList ds := by
  cases ds with
  | nil => simp [walkList, countFilesList]
  | cons d rest =>
      simp [walkList, countFilesList, List.map_append, List.sum_append,
        walk_files_sum (root ++ "/" ++ d.dname) d, walkList_files_sum root rest]

end

/-- Walking enumerates exactly the files of the tree, one pair each. -/
theorem walkFiles_length (root : String) (t : DirTree) :
    (walkFiles root t).length = t.countFiles := by
  unfold walkFiles
  rw [List.length_flatMap]
  simp only [Function.comp_def, List.length_map]
  exact walk_files_sum root t

/-- The per-group download loop never issues the bulk delete. -/
theorem downloadFiles_no_deleteAll (env : GoProEnv) (fs : List MediaFile) :
    Event.camDeleteAll ∉ (downloadFiles env fs).2 := by
  induction fs with
  | nil => simp [downloadFiles]
  | cons f rest ih =>
      rcases h : env.download f.filename ("to_upload/" ++ lastPart f.filename) with _ | e
      · rcases hr : downloadFiles env rest with ⟨res, tr⟩
        rw [hr] at ih
        simp only [downloadFiles, h, hr]
        simp only [List.mem_cons, not_or]
        refine ⟨by simp, by simp, ?_⟩
        simpa using ih
      · simp [downloadFiles, h]

/-- The whole download phase never issues the bulk delete. -/
theorem downloadGroups_no_deleteAll (env : GoProEnv) (gs : List MediaGroup) :
    Event.camDeleteAll ∉ (downloadGroups env gs).2 := by
  induction gs with
  | nil => simp [downloadGroups]
  | cons g rest ih =>
      rcases hf : downloadFiles env g.file_system with ⟨res, tr⟩
      have hnf := downloadFiles_no_deleteAll env g.file_system
      rw [hf] at hnf
      rcases res with e | u
      · simp only [downloadGroups, hf]
        simpa using hnf
      · rcases hr : downloadGroups env rest with ⟨res2, tr2⟩
        rw [hr] at ih
        simp only [downloadGroups, hf, hr]
        simp only [List.mem_append, not_or]
        exact ⟨by simpa using hnf, by simpa using ih⟩

/-- If the per-group loop completed, every file of the group was
downloaded (its download event is in the trace). -/
theorem downloadFiles_ok_mem (env : GoProEnv) (fs : List MediaFile) (u : Unit)
    (hok : (downloadFiles env fs).1 = .ok u) :
    ∀ f ∈ fs, Event.camDownload f.filename ("to_upload/" ++ lastPart f.filename) ∈
      (downloadFiles env fs).2 := by
  induction fs with
  | nil => simp
  | cons f rest ih =>
      intro g hg
      rcases h : env.download f.filename ("to_upload/" ++ lastPart f.filename) with _ | e
      · rcases hr : downloadFiles env rest with ⟨res, tr⟩
        rw [hr] at ih
        simp only [downloadFiles, h, hr] at hok ⊢
        simp only [List.mem_cons]
        rcases List.mem_cons.mp hg with hg2 | hg2
        · subst hg2; left; rfl
        · right; right
          exact ih (by simpa using hok) g hg2
      · simp only [downloadFiles, h] at hok
        simp at hok

/-- If the download phase completed, every file of every group was
downloaded. -/
theorem downloadGroups_ok_mem (env : GoProEnv) (gs : List MediaGroup) (u : Unit)
    (hok : (downloadGroups env gs).1 = .ok u) :
    ∀ g ∈ gs, ∀ f ∈ g.file_system,
      Event.camDownload f.filename ("to_upload/" ++ lastPart f.filename) ∈
        (downloadGroups env gs).2 := by
  induction gs with
  | nil => simp
  | cons g rest ih =>
      intro g2 hg2 f hf
      rcases hfz : downloadFiles env g.file_system with ⟨res, tr⟩
      rcases res with e | u2
      · simp only [downloadGroups, hfz] at hok
        simp at hok
      · rcases hr : downloadGroups env rest with ⟨res2, tr2⟩
        rw [hr] at ih
        simp only [downloadGroups, hfz, hr] at hok ⊢
        simp only [List.mem_append]
        rcases List.mem_cons.mp hg2 with hg | hg
        · subst hg
          left
          have := downloadFiles_ok_mem env g2.file_system u2 (by rw [hfz]) f hf
          rw [hfz] at this
          exact this
        · right
          exact ih (by simpa using hok) g2 hg f hf

/-! ### Claim theorems. -/

/-- C1: for an existing readable file of size `sz`, `upload_file_to_box`
takes the single-request path (marked by its `Uploading small file...`
print) exactly when `sz < 20 * 1024 * 1024`, and otherwise invokes the
chunked SDK upload declaring the full size; the boundary cases 20971520
(chunked), 20971519 (single) and 0 (single) are instances, exercised in
the witness. -/
theorem upload_router_threshold (env : BoxEnv) (p nm fid : String) (sz : Nat)
    (h : env.fs p = some sz) :
    (Event.logUploadingSmall p ∈ (upload_file_to_box env p nm fid).2 ↔
      sz < 20 * 1024 * 1024) ∧
    (Event.sdkLargeUpload p nm sz fid ∈ (upload_file_to_box env p nm fid).2 ↔
      ¬ sz < 20 * 1024 * 1024) := by
  by_cases hlt : sz < 20 * 1024 * 1024
  · rcases hs : env.smallUpload p fid (chosen_upload_name p (some nm)) with _ | d
    · simp [upload_file_to_box_small_fail env p nm fid sz h hlt hs, hlt]
    · simp [upload_file_to_box_small_ok env p nm fid sz d h hlt hs, hlt]
  · rcases hs : env.largeUpload p nm sz fid with _ | d
    · simp [upload_file_to_box_large_fail env p nm fid sz h hlt hs, hlt]
    · simp [upload_file_to_box_large_ok env p nm fid sz d h hlt hs, hlt]

/-- A filesystem with files at both sides of the 20 MiB boundary and a
zero-byte file; the SDK oracles succeed. -/
def envBoundary : BoxEnv :=
  { fs := fun p =>
      if p = "at.mp4" then some 20971520
      else if p = "under.mp4" then some 20971519
      else if p = "zero.mp4" then some 0 else none
    smallUpload := fun _ _ n => some ⟨"id-small", n⟩
    largeUpload := fun _ n _ _ => some ⟨"id-large", n⟩ }

/-- Witness for C1 at the boundary sizes 20971520, 20971519 and 0. -/
theorem upload_router_threshold_witness :
    (Event.sdkLargeUpload "at.mp4" "at.mp4" 20971520 "0" ∈
      (upload_file_to_box envBoundary "at.mp4" "at.mp4" "0").2) ∧
    (Event.logUploadingSmall "under.mp4" ∈
      (upload_file_to_box envBoundary "under.mp4" "under.mp4" "0").2) ∧
    (Event.logUploadingSmall "zero.mp4" ∈
      (upload_file_to_box envBoundary "zero.mp4" "zero.mp4" "0").2) :=
  ⟨((upload_router_threshold envBoundary "at.mp4" "at.mp4" "0" 20971520 rfl).2).mpr
      (by decide),
   ((upload_router_threshold envBoundary "under.mp4" "under.mp4" "0" 20971519 rfl).1).mpr
      (by decide),
   ((upload_router_threshold envBoundary "zero.mp4" "zero.mp4" "0" 0 rfl).1).mpr
      (by decide)⟩

/-- C9: when the source path does not exist (or its size cannot be read),
`get_file_size` raises and `upload_file_to_box` propagates that exception
with an empty trace: neither try-guarded helper was entered, nothing was
logged, and no sentinel was produced. -/
theorem size_query_failure_escapes_router (env : BoxEnv) (p nm fid : String)
    (h : env.fs p = none) :
    get_file_size env p = .error (.fileNotFound p) ∧
    upload_file_to_box env p nm fid = (.error (.fileNotFound p), []) :=
  ⟨by simp [get_file_size, h], upload_file_to_box_of_fs_none env p nm fid h⟩

/-- A filesystem with no readable files and failing SDK oracles. -/
def envEmptyFs : BoxEnv :=
  { fs := fun _ => none
    smallUpload := fun _ _ _ => none
    largeUpload := fun _ _ _ _ => none }

/-- Witness for C9 on a missing file. -/
theorem size_query_failure_escapes_router_witness :
    get_file_size envEmptyFs "gone.mp4" = .error (.fileNotFound "gone.mp4") ∧
    upload_file_to_box envEmptyFs "gone.mp4" "gone.mp4" "0" =
      (.error (.fileNotFound "gone.mp4"), []) :=
  size_query_failure_escapes_router envEmptyFs "gone.mp4" "gone.mp4" "0" rfl

/-- C10: called without a destination folder identifier,
`upload_small_file_to_folder` uploads into folder id `"0"` (the root
folder of the service) under the base name; `"0"` is none of the hardcoded
destination folder constants. -/
theorem upload_small_default_is_root_folder (env : BoxEnv) (p : String) (sz : Nat)
    (h : env.fs p = some sz) :
    Event.sdkSmallUpload p "0" (basename p) ∈
      (upload_small_file_to_folder_default env p).2 ∧
    upload_small_default_folder_id = "0" ∧
    upload_small_default_folder_id ≠ videos_folder_box_id ∧
    upload_small_default_folder_id ≠ box_road_health_folder_id := by
  refine ⟨?_, rfl, by decide, by decide⟩
  unfold upload_small_file_to_folder_default upload_small_file_to_folder
  simp only [chosen_upload_name, upload_small_default_folder_id, h]
  rcases hs : env.smallUpload p "0" (basename p) with _ | d <;> simp [hs]

/-- Witness for C10 on a concrete small file. -/
theorem upload_small_default_is_root_folder_witness :
    Event.sdkSmallUpload "under.mp4" "0" "under.mp4" ∈
      (upload_small_file_to_folder_default envBoundary "under.mp4").2 := by
  have h := upload_small_default_is_root_folder envBoundary "under.mp4" 20971519 rfl
  have hb : basename "under.mp4" = "under.mp4" := by decide
  rw [hb] at h
  exact h.1

/-- C8: the router and both upload helpers perform no local filesystem
mutation: every event of every trace they can produce is a read
(`fsGetSize`/`fsOpenRead`), a log line, or an SDK network call — never
the `fsWrite` mutation event. -/
theorem upload_flow_no_local_fs_mutation (env : BoxEnv) (p nm fid pfid : String)
    (nn : Option String) :
    ((upload_file_to_box env p nm fid).2.all fun e => !e.isFsMutation) = true ∧
    ((upload_small_file_to_folder env p fid nn).2.all fun e => !e.isFsMutation) = true ∧
    ((upload_large_file_to_folder env p nm pfid).2.all fun e => !e.isFsMutation) = true := by
  refine ⟨?_, ?_, ?_⟩
  · rcases h : env.fs p with _ | sz
    · simp [upload_file_to_box_of_fs_none env p nm fid h]
    · by_cases hlt : sz < 20 * 1024 * 1024
      · rcases hs : env.smallUpload p fid (chosen_upload_name p (some nm)) with _ | d
        · simp [upload_file_to_box_small_fail env p nm fid sz h hlt hs, Event.isFsMutation]
        · simp [upload_file_to_box_small_ok env p nm fid sz d h hlt hs, Event.isFsMutation]
      · rcases hs : env.largeUpload p nm sz fid with _ | d
        · simp [upload_file_to_box_large_fail env p nm fid sz h hlt hs, Event.isFsMutation]
        · simp [upload_file_to_box_large_ok env p nm fid sz d h hlt hs, Event.isFsMutation]
  · unfold upload_small_file_to_folder
    rcases h : env.fs p with _ | sz
    · simp [Event.isFsMutation]
    · rcases hs : env.smallUpload p fid (chosen_upload_name p nn) with _ | d <;>
        simp [hs, Event.isFsMutation]
  · unfold upload_large_file_to_folder
    rcases h : env.fs p with _ | sz
    · simp [Event.isFsMutation]
    · rcases hs : env.largeUpload p nm sz pfid with _ | d <;>
        simp [hs, Event.isFsMutation]

/-- C4: over any directory tree, `upload_all_files_to_box` makes exactly
one upload attempt per regular file (one per-file `Uploading ...` print,
`tree.countFiles` in total, at any nesting depth), and when the upload of
any one file raises, the exception is caught and logged
(`logErrorUploading`) while the traversal continues — the function is
total and never raises. -/
theorem upload_all_attempts_and_isolation (env : BoxEnv) (root dest : String)
    (tree : DirTree) :
    ((upload_all_files_to_box env root tree dest).countP Event.isLogUploading =
      tree.countFiles) ∧
    (∀ rf ∈ walkFiles root tree, ∀ e,
      (upload_file_to_box env (rf.1 ++ "/" ++ rf.2) rf.2 dest).1 = .error e →
      Event.logErrorUploading rf.2 ∈ upload_all_files_to_box env root tree dest) := by
  constructor
  · rw [upload_all_files_to_box, flatMap_upload_one_countP, walkFiles_length]
  · intro rf hrf e he
    unfold upload_all_files_to_box
    rw [List.mem_flatMap]
    refine ⟨rf, hrf, ?_⟩
    unfold upload_one_file
    rcases h : upload_file_to_box env (rf.1 ++ "/" ++ rf.2) rf.2 dest with ⟨res, tr⟩
    rw [h] at he
    rcases res with e2 | u
    · simp [h]
    · simp at he

/-- A filesystem where `up/ok.mp4` exists and everything else raises. -/
def envOneGone : BoxEnv :=
  { fs := fun p => if p = "up/ok.mp4" then some 7 else none
    smallUpload := fun _ _ n => some ⟨"id1", n⟩
    largeUpload := fun _ n _ _ => some ⟨"id2", n⟩ }

/-- A flat tree with one unreadable file among two. -/
def treeOneGone : DirTree := .node "up" ["ok.mp4", "gone.mp4"] []

/-- Witness for C4: both files are attempted even though the second
file upload raises, and the failure is logged. -/
theorem upload_all_attempts_and_isolation_witness :
    ((upload_all_files_to_box envOneGone "up" treeOneGone "0").countP
      Event.isLogUploading = treeOneGone.countFiles) ∧
    Event.logErrorUploading "gone.mp4" ∈
      upload_all_files_to_box envOneGone "up" treeOneGone "0" :=
  ⟨(upload_all_attempts_and_isolation envOneGone "up" "0" treeOneGone).1,
   (upload_all_attempts_and_isolation envOneGone "up" "0" treeOneGone).2
     ("up", "gone.mp4") (by decide) (.fileNotFound "up/gone.mp4") rfl⟩

/-- The bulk delete never hides among the manifest print and the
download-phase trace. -/
theorem not_mem_cons_getMediaList (tr : List Event)
    (hno : Event.camDeleteAll ∉ tr) :
    Event.camDeleteAll ∉ (Event.camGetMediaList :: tr) := by
  intro hmem
  rcases List.mem_cons.mp hmem with h1 | h1
  · exact absurd h1 (by simp)
  · exact hno h1

/-- C6: in the capture-acquisition flow, the bulk delete is issued at
most once, and only after every file of every media group has been
downloaded (every download event precedes it in the trace, and it is the
final event); if manifest retrieval raises, or any single download
raises, the delete is never issued and the error propagates out of the
flow. -/
theorem main_flow_delete_once_after_downloads (env : GoProEnv) :
    ((main_flow env).2.countP Event.isDeleteAll ≤ 1) ∧
    (Event.camDeleteAll ∈ (main_flow env).2 →
      ∃ media_list, env.media = .ok media_list ∧
        ∃ pre, (main_flow env).2 = pre ++ [Event.camDeleteAll] ∧
          Event.camDeleteAll ∉ pre ∧
          ∀ g ∈ media_list, ∀ f ∈ g.file_system,
            Event.camDownload f.filename ("to_upload/" ++ lastPart f.filename) ∈ pre) ∧
    (∀ e, env.media = .error e →
      (main_flow env).1 = .error e ∧ Event.camDeleteAll ∉ (main_flow env).2) ∧
    (∀ media_list e, env.media = .ok media_list →
      (downloadGroups env media_list).1 = .error e →
      (main_flow env).1 = .error e ∧ Event.camDeleteAll ∉ (main_flow env).2) := by
  rcases hm : env.media with e0 | groups
  · simp only [main_flow, hm]
    refine ⟨by simp [Event.isDeleteAll], by simp, ?_, ?_⟩
    · intro e he
      injection he with he2
      subst he2
      exact ⟨rfl, by simp⟩
    · intro media_list e hml
      exact absurd hml (by simp)
  · rcases hdg : downloadGroups env groups with ⟨res, tr⟩
    have hno := downloadGroups_no_deleteAll env groups
    rw [hdg] at hno
    simp only at hno
    have hno0 : tr.countP Event.isDeleteAll = 0 := by
      rw [List.countP_eq_zero]
      intro a ha hp
      cases a <;> simp [Event.isDeleteAll] at hp
      exact hno ha
    rcases res with e1 | u
    · simp only [main_flow, hm, hdg]
      refine ⟨?_, ?_, ?_, ?_⟩
      · simp [List.countP_cons, hno0, Event.isDeleteAll]
      · intro hmem
        exact absurd hmem (not_mem_cons_getMediaList tr hno)
      · intro e he
        exact absurd he (by simp)
      · intro media_list e hml hdl
        injection hml with hml2
        subst hml2
        rw [hdg] at hdl
        simp only at hdl
        injection hdl with hdl2
        subst hdl2
        exact ⟨rfl, not_mem_cons_getMediaList tr hno⟩
    · have hdelcount :
          ((Event.camGetMediaList :: tr ++ [Event.camDeleteAll] : List Event).countP
              Event.isDeleteAll) ≤ 1 := by
        simp [List.countP_cons, List.countP_append, hno0, Event.isDeleteAll]
      have hmempart : ∃ pre,
          (Event.camGetMediaList :: tr ++ [Event.camDeleteAll] : List Event) =
            pre ++ [Event.camDeleteAll] ∧
          Event.camDeleteAll ∉ pre ∧
          ∀ g ∈ groups, ∀ f ∈ g.file_system,
            Event.camDownload f.filename ("to_upload/" ++ lastPart f.filename) ∈ pre := by
        refine ⟨Event.camGetMediaList :: tr, by simp, not_mem_cons_getMediaList tr hno, ?_⟩
        intro g hg f hf
        have hmm := downloadGroups_ok_mem env groups u (by rw [hdg]) g hg f hf
        rw [hdg] at hmm
        exact List.mem_cons_of_mem _ hmm
      rcases hd : env.deleteAllResult with _ | e2
      · simp only [main_flow, hm, hdg, hd]
        refine ⟨hdelcount, fun _ => ⟨groups, rfl, hmempart⟩, ?_, ?_⟩
        · intro e he
          exact absurd he (by simp)
        · intro media_list e hml hdl
          injection hml with hml2
          subst hml2
          rw [hdg] at hdl
          simp at hdl
      · simp only [main_flow, hm, hdg, hd]
        refine ⟨hdelcount, fun _ => ⟨groups, rfl, hmempart⟩, ?_, ?_⟩
        · intro e he
          exact absurd he (by simp)
        · intro media_list e hml hdl
          injection hml with hml2
          subst hml2
          rw [hdg] at hdl
          simp at hdl

/-- A camera with one media group of one file; everything succeeds. -/
def gpHappy : GoProEnv :=
  { media := .ok [⟨[⟨"DCIM/100/a.mp4"⟩]⟩]
    download := fun _ _ => none
    deleteAllResult := none }

/-- A camera whose media-list query raises. -/
def gpManifestErr : GoProEnv :=
  { media := .error "manifest boom"
    download := fun _ _ => none
    deleteAllResult := none }

/-- Witness for C6: on the happy path the delete is last and preceded by
the download; on a manifest failure the error propagates and no delete is
issued. -/
theorem main_flow_delete_once_after_downloads_witness :
    (∃ media_list, gpHappy.media = .ok media_list ∧
      ∃ pre, (main_flow gpHappy).2 = pre ++ [Event.camDeleteAll] ∧
        Event.camDeleteAll ∉ pre ∧
        ∀ g ∈ media_list, ∀ f ∈ g.file_system,
          Event.camDownload f.filename ("to_upload/" ++ lastPart f.filename) ∈ pre) ∧
    ((main_flow gpManifestErr).1 = .error "manifest boom" ∧
      Event.camDeleteAll ∉ (main_flow gpManifestErr).2) :=
  ⟨(main_flow_delete_once_after_downloads gpHappy).2.1 (by decide),
   (main_flow_delete_once_after_downloads gpManifestErr).2.2.1 "manifest boom" rfl⟩

/-- Is the event the success print logging the uploaded name and id
(line 133)? -/
def Event.isLogUploaded : Event → Bool
  | .logUploaded _ _ => true
  | _ => false

/-- A filesystem with one small readable file and failing SDK uploads. -/
def envSmallFail : BoxEnv :=
  { fs := fun p => if p = "c.mp4" then some 5 else none
    smallUpload := fun _ _ _ => none
    largeUpload := fun _ _ _ _ => none }

/-- A filesystem with one 20 MiB readable file and failing SDK uploads. -/
def envLargeFail : BoxEnv :=
  { fs := fun p => if p = "b.mp4" then some 20971520 else none
    smallUpload := fun _ _ _ => none
    largeUpload := fun _ _ _ _ => none }

/-- C2 counterexample: when the helper returns the sentinel, the caller
`upload_file_to_box` returns normally (no exception from attribute
access) and never logs a name/identifier, because line 132 guards with
`if uploaded_file:` — contradicting the claim that the caller does not
distinguish the sentinel and raises. -/
theorem router_sentinel_counterexample :
    upload_file_to_box envSmallFail "c.mp4" "c.mp4" "0" =
      (Except.ok (), [.fsGetSize "c.mp4", .logUploadingSmall "c.mp4",
        .fsOpenRead "c.mp4", .sdkSmallUpload "c.mp4" "0" "c.mp4",
        .logUploadFailed "c.mp4"]) ∧
    ((upload_file_to_box envSmallFail "c.mp4" "c.mp4" "0").2.countP
      Event.isLogUploaded) = 0 :=
  ⟨rfl, by decide⟩

/-- C2 amended: when a single-file upload helper returns the sentinel,
the bulk-upload caller DOES distinguish it (the `if uploaded_file:`
truthiness check): it skips the name/identifier log entirely, accesses no
attribute on the sentinel, and completes without raising. -/
theorem router_checks_sentinel (env : BoxEnv) (p nm fid : String) (sz : Nat)
    (h : env.fs p = some sz) :
    (sz < 20 * 1024 * 1024 →
      env.smallUpload p fid (chosen_upload_name p (some nm)) = none →
      (upload_file_to_box env p nm fid).1 = .ok () ∧
      ((upload_file_to_box env p nm fid).2.countP Event.isLogUploaded) = 0) ∧
    (¬ sz < 20 * 1024 * 1024 →
      env.largeUpload p nm sz fid = none →
      (upload_file_to_box env p nm fid).1 = .ok () ∧
      ((upload_file_to_box env p nm fid).2.countP Event.isLogUploaded) = 0) := by
  constructor
  · intro hlt hs
    simp [upload_file_to_box_small_fail env p nm fid sz h hlt hs,
      List.countP_cons, Event.isLogUploaded]
  · intro hlt hs
    simp [upload_file_to_box_large_fail env p nm fid sz h hlt hs,
      List.countP_cons, Event.isLogUploaded]

/-- Witness for the amended C2 on both failing paths. -/
theorem router_checks_sentinel_witness :
    ((upload_file_to_box envSmallFail "c.mp4" "c.mp4" "0").1 = .ok () ∧
      ((upload_file_to_box envSmallFail "c.mp4" "c.mp4" "0").2.countP
        Event.isLogUploaded) = 0) ∧
    ((upload_file_to_box envLargeFail "b.mp4" "b.mp4" "0").1 = .ok () ∧
      ((upload_file_to_box envLargeFail "b.mp4" "b.mp4" "0").2.countP
        Event.isLogUploaded) = 0) :=
  ⟨(router_checks_sentinel envSmallFail "c.mp4" "c.mp4" "0" 5 rfl).1
      (by decide) rfl,
   (router_checks_sentinel envLargeFail "b.mp4" "b.mp4" "0" 20971520 rfl).2
      (by decide) rfl⟩

/-- An environment where all three credential variables are set. -/
def credEnvAll : CredEnv :=
  { box_client_id := some "env-cid"
    box_client_secret := some "env-csec"
    box_enterprise_id := some "env-eid" }

/-- C3 counterexample: with both the environment variable and a
constructor override present, `Box.__init__` stores the constructor
value, not the environment value — so the environment variable does NOT
take precedence (the code is `client_id or BOX_CLIENT_ID`). -/
theorem env_var_precedence_counterexample :
    (box_init_credentials credEnvAll (some "ctor-cid") (some "ctor-csec")
      (some "ctor-eid")).client_id = some "ctor-cid" ∧
    (some "ctor-cid" : Option String) ≠ credEnvAll.box_client_id :=
  ⟨rfl, by decide⟩

/-- C3 amended: for each credential, a truthy (non-`None`, non-empty)
constructor argument takes precedence; only when the constructor argument
is absent or falsy does the value fall back to the environment variable
(which may itself be `None`). -/
theorem ctor_arg_precedence (env : CredEnv) (cid csec eid : Option String) :
    (∀ s, cid = some s → s ≠ "" →
      (box_init_credentials env cid csec eid).client_id = some s) ∧
    ((cid = none ∨ cid = some "") →
      (box_init_credentials env cid csec eid).client_id = env.box_client_id) ∧
    (∀ s, csec = some s → s ≠ "" →
      (box_init_credentials env cid csec eid).client_secret = some s) ∧
    ((csec = none ∨ csec = some "") →
      (box_init_credentials env cid csec eid).client_secret = env.box_client_secret) ∧
    (∀ s, eid = some s → s ≠ "" →
      (box_init_credentials env cid csec eid).enterprise_id = some s) ∧
    ((eid = none ∨ eid = some "") →
      (box_init_credentials env cid csec eid).enterprise_id = env.box_enterprise_id) := by
  refine ⟨?_, ?_, ?_, ?_, ?_, ?_⟩
  · intro s hs hne
    subst hs
    simp [box_init_credentials, pyOrStr, hne]
  · rintro (h | h) <;> subst h <;> simp [box_init_credentials, pyOrStr]
  · intro s hs hne
    subst hs
    simp [box_init_credentials, pyOrStr, hne]
  · rintro (h | h) <;> subst h <;> simp [box_init_credentials, pyOrStr]
  · intro s hs hne
    subst hs
    simp [box_init_credentials, pyOrStr, hne]
  · rintro (h | h) <;> subst h <;> simp [box_init_credentials, pyOrStr]

/-- Witness for the amended C3: a truthy constructor argument wins; an
absent one falls back to the environment variable. -/
theorem ctor_arg_precedence_witness :
    (box_init_credentials credEnvAll (some "ctor-cid") (some "ctor-csec")
      (some "ctor-eid")).client_id = some "ctor-cid" ∧
    (box_init_credentials credEnvAll none (some "ctor-csec")
      (some "ctor-eid")).client_id = credEnvAll.box_client_id :=
  ⟨(ctor_arg_precedence credEnvAll (some "ctor-cid") (some "ctor-csec")
      (some "ctor-eid")).1 "ctor-cid" rfl (by decide),
   (ctor_arg_precedence credEnvAll none (some "ctor-csec")
      (some "ctor-eid")).2.1 (Or.inl rfl)⟩

/-- C5 counterexample: calling `upload_large_file_to_folder` on a path
whose size query fails makes the exception escape the helper (line 95 is
before the `try`), contradicting the claim that no exception escapes
either helper. -/
theorem helpers_never_raise_counterexample :
    upload_large_file_to_folder envEmptyFs "missing.mp4" "m.mp4" "0" =
      (.error (.fileNotFound "missing.mp4"), []) := rfl

/-- C5 amended: `upload_small_file_to_folder` never raises — it returns a
descriptor on SDK success and otherwise logs and returns the sentinel;
`upload_large_file_to_folder` has the same contract only once its
pre-`try` size query succeeds: a size-query failure (e.g. missing file)
escapes it as an exception. -/
theorem helpers_sentinel_contract (env : BoxEnv) (p fid : String)
    (nn : Option String) (fn pfid : String) :
    (∃ r, (upload_small_file_to_folder env p fid nn).1 = .ok r) ∧
    ((upload_small_file_to_folder env p fid nn).1 = .ok none →
      Event.logUploadFailed p ∈ (upload_small_file_to_folder env p fid nn).2) ∧
    (∀ d sz, env.fs p = some sz →
      env.smallUpload p fid (chosen_upload_name p nn) = some d →
      (upload_small_file_to_folder env p fid nn).1 = .ok (some d)) ∧
    (∀ sz, env.fs p = some sz →
      (∃ r, (upload_large_file_to_folder env p fn pfid).1 = .ok r) ∧
      ((upload_large_file_to_folder env p fn pfid).1 = .ok none →
        Event.logUploadFailed fn ∈ (upload_large_file_to_folder env p fn pfid).2) ∧
      (∀ d, env.largeUpload p fn sz pfid = some d →
        (upload_large_file_to_folder env p fn pfid).1 = .ok (some d))) ∧
    (env.fs p = none →
      (upload_large_file_to_folder env p fn pfid).1 = .error (.fileNotFound p)) := by
  refine ⟨?_, ?_, ?_, ?_, ?_⟩
  · unfold upload_small_file_to_folder
    rcases h : env.fs p with _ | sz
    · exact ⟨none, rfl⟩
    · rcases hs : env.smallUpload p fid (chosen_upload_name p nn) with _ | d
      · exact ⟨none, by simp [hs]⟩
      · exact ⟨some d, by simp [hs]⟩
  · unfold upload_small_file_to_folder
    rcases h : env.fs p with _ | sz
    · intro _; simp
    · rcases hs : env.smallUpload p fid (chosen_upload_name p nn) with _ | d
      · intro _; simp [hs]
      · intro hcontra; simp [hs] at hcontra
  · intro d sz h hs
    unfold upload_small_file_to_folder
    simp [h, hs]
  · intro sz h
    unfold upload_large_file_to_folder
    rcases hs : env.largeUpload p fn sz pfid with _ | d
    · refine ⟨⟨none, by simp [h, hs]⟩, ?_, ?_⟩
      · intro _; simp [h, hs]
      · intro d2 hd2; exact absurd hd2 (by simp)
    · refine ⟨⟨some d, by simp [h, hs]⟩, ?_, ?_⟩
      · intro hcontra; simp [h, hs] at hcontra
      · intro d2 hd2
        injection hd2 with h4
        subst h4
        simp [h, hs]
  · intro h
    unfold upload_large_file_to_folder
    simp [h]

/-- Witness for the amended C5: the small helper converts failure to the
logged sentinel; the large helper raises on a missing file. -/
theorem helpers_sentinel_contract_witness :
    Event.logUploadFailed "c.mp4" ∈
      (upload_small_file_to_folder envSmallFail "c.mp4" "0" none).2 ∧
    (upload_large_file_to_folder envEmptyFs "missing.mp4" "m.mp4" "0").1 =
      .error (.fileNotFound "missing.mp4") :=
  ⟨(helpers_sentinel_contract envSmallFail "c.mp4" "0" none "m.mp4" "0").2.1 rfl,
   (helpers_sentinel_contract envEmptyFs "missing.mp4" "0" none "m.mp4" "0").2.2.2.2 rfl⟩

/-- A non-empty override survives the `if not new_name:` check. -/
theorem chosen_upload_name_of_ne (p nm : String) (hne : nm ≠ "") :
    chosen_upload_name p (some nm) = nm := by
  simp [chosen_upload_name, hne]

/-- An empty-string override is falsy and falls back to the base name. -/
theorem chosen_upload_name_of_empty (p : String) :
    chosen_upload_name p (some "") = basename p := by
  simp [chosen_upload_name]

/-- An omitted override falls back to the base name. -/
theorem chosen_upload_name_of_none (p : String) :
    chosen_upload_name p none = basename p := rfl

/-- On the single-request path, the SDK is always called with the chosen
name, whether or not the call succeeds. -/
theorem sdkSmall_mem_router (env : BoxEnv) (p nm fid : String) (sz : Nat)
    (h : env.fs p = some sz) (hlt : sz < 20 * 1024 * 1024) :
    Event.sdkSmallUpload p fid (chosen_upload_name p (some nm)) ∈
      (upload_file_to_box env p nm fid).2 := by
  rcases hs : env.smallUpload p fid (chosen_upload_name p (some nm)) with _ | d
  · simp [upload_file_to_box_small_fail env p nm fid sz h hlt hs]
  · simp [upload_file_to_box_small_ok env p nm fid sz d h hlt hs]

/-- On the chunked path, the SDK is always called with the destination
name verbatim. -/
theorem sdkLarge_mem_router (env : BoxEnv) (p nm fid : String) (sz : Nat)
    (h : env.fs p = some sz) (hlt : ¬ sz < 20 * 1024 * 1024) :
    Event.sdkLargeUpload p nm sz fid ∈ (upload_file_to_box env p nm fid).2 := by
  rcases hs : env.largeUpload p nm sz fid with _ | d
  · simp [upload_file_to_box_large_fail env p nm fid sz h hlt hs]
  · simp [upload_file_to_box_large_ok env p nm fid sz d h hlt hs]

/-- Any router event of a walked file is in its loop-body trace. -/
theorem mem_upload_one_file_of_mem_router (env : BoxEnv) (dest : String)
    (rf : String × String) (e : Event)
    (hmem : e ∈ (upload_file_to_box env (rf.1 ++ "/" ++ rf.2) rf.2 dest).2) :
    e ∈ upload_one_file env dest rf := by
  unfold upload_one_file
  rcases h : upload_file_to_box env (rf.1 ++ "/" ++ rf.2) rf.2 dest with ⟨res, tr⟩
  rw [h] at hmem
  simp only at hmem
  rcases res with e2 | u <;> simp [h] <;> right
  · left; exact hmem
  · exact hmem

/-- A filesystem with one small readable file in a subdirectory and
succeeding SDK uploads. -/
def envSubdirFile : BoxEnv :=
  { fs := fun p => if p = "d/a.mp4" then some 5 else none
    smallUpload := fun _ _ n => some ⟨"id9", n⟩
    largeUpload := fun _ n _ _ => some ⟨"id10", n⟩ }

/-- C7 counterexample: supplying the override name `""` through the
router for a small file makes the SDK receive the base name `a.mp4`, not
the supplied override — so the remote name does not always equal the
override when one is supplied (`if not new_name:` treats `""` as
absent). -/
theorem remote_name_override_counterexample :
    (upload_file_to_box envSubdirFile "d/a.mp4" "" "0").2 =
      [.fsGetSize "d/a.mp4", .logUploadingSmall "d/a.mp4", .fsOpenRead "d/a.mp4",
       .sdkSmallUpload "d/a.mp4" "0" "a.mp4", .logUploaded "a.mp4" "id9"] ∧
    ("a.mp4" : String) ≠ "" :=
  ⟨by decide, by decide⟩

/-- C7 amended: through the router a NON-EMPTY override is used as the
remote name on the single-request path, and the override is used verbatim
on the chunked path; an empty override on the single-request path falls
back to the base name, as does an omitted override in a direct helper
call; in the bulk traversal each walked file uses its own name (its base
name, `os.walk` file names being slash-free) as the remote name on either
path. -/
theorem remote_name_rules (env : BoxEnv) (p nm fid root dest : String)
    (tree : DirTree) (sz : Nat) :
    (env.fs p = some sz → sz < 20 * 1024 * 1024 → nm ≠ "" →
      Event.sdkSmallUpload p fid nm ∈ (upload_file_to_box env p nm fid).2) ∧
    (env.fs p = some sz → sz < 20 * 1024 * 1024 → nm = "" →
      Event.sdkSmallUpload p fid (basename p) ∈ (upload_file_to_box env p nm fid).2) ∧
    (env.fs p = some sz → ¬ sz < 20 * 1024 * 1024 →
      Event.sdkLargeUpload p nm sz fid ∈ (upload_file_to_box env p nm fid).2) ∧
    (env.fs p = some sz →
      Event.sdkSmallUpload p fid (basename p) ∈
        (upload_small_file_to_folder env p fid none).2) ∧
    (∀ rf ∈ walkFiles root tree, rf.2 ≠ "" →
      ∀ szf, env.fs (rf.1 ++ "/" ++ rf.2) = some szf →
      (szf < 20 * 1024 * 1024 →
        Event.sdkSmallUpload (rf.1 ++ "/" ++ rf.2) dest rf.2 ∈
          upload_all_files_to_box env root tree dest) ∧
      (¬ szf < 20 * 1024 * 1024 →
        Event.sdkLargeUpload (rf.1 ++ "/" ++ rf.2) rf.2 szf dest ∈
          upload_all_files_to_box env root tree dest)) := by
  refine ⟨?_, ?_, ?_, ?_, ?_⟩
  · intro h hlt hne
    have hm := sdkSmall_mem_router env p nm fid sz h hlt
    rwa [chosen_upload_name_of_ne p nm hne] at hm
  · intro h hlt hemp
    subst hemp
    have hm := sdkSmall_mem_router env p "" fid sz h hlt
    rwa [chosen_upload_name_of_empty p] at hm
  · intro h hlt
    exact sdkLarge_mem_router env p nm fid sz h hlt
  · intro h
    unfold upload_small_file_to_folder
    simp only [chosen_upload_name_of_none, h]
    rcases hs : env.smallUpload p fid (basename p) with _ | d <;> simp [hs]
  · intro rf hrf hne szf hf
    constructor
    · intro hlt
      have hm := sdkSmall_mem_router env (rf.1 ++ "/" ++ rf.2) rf.2 dest szf hf hlt
      rw [chosen_upload_name_of_ne _ _ hne] at hm
      unfold upload_all_files_to_box
      rw [List.mem_flatMap]
      exact ⟨rf, hrf, mem_upload_one_file_of_mem_router env dest rf _ hm⟩
    · intro hlt
      have hm := sdkLarge_mem_router env (rf.1 ++ "/" ++ rf.2) rf.2 dest szf hf hlt
      unfold upload_all_files_to_box
      rw [List.mem_flatMap]
      exact ⟨rf, hrf, mem_upload_one_file_of_mem_router env dest rf _ hm⟩

/-- Witness for the amended C7: a non-empty override reaches the SDK on
the small path, the override reaches the chunked SDK call verbatim, and a
walked file keeps its own base name. -/
theorem remote_name_rules_witness :
    (Event.sdkSmallUpload "d/a.mp4" "0" "clip" ∈
      (upload_file_to_box envSubdirFile "d/a.mp4" "clip" "0").2) ∧
    (Event.sdkLargeUpload "at.mp4" "at.mp4" 20971520 "0" ∈
      (upload_file_to_box envBoundary "at.mp4" "at.mp4" "0").2) ∧
    (Event.sdkSmallUpload "up/ok.mp4" "0" "ok.mp4" ∈
      upload_all_files_to_box envOneGone "up" treeOneGone "0") :=
  ⟨(remote_name_rules envSubdirFile "d/a.mp4" "clip" "0" "r" "0"
      (DirTree.node "r" [] []) 5).1 rfl (by decide) (by decide),
   (remote_name_rules envBoundary "at.mp4" "at.mp4" "0" "r" "0"
      (DirTree.node "r" [] []) 20971520).2.2.1 rfl (by decide),
   ((remote_name_rules envOneGone "up/ok.mp4" "x" "0" "up" "0"
      treeOneGone 7).2.2.2.2 ("up", "ok.mp4") (by decide) (by decide) 7 rfl).1
      (by decide)⟩
